import Mathlib

/-!
Verification of the wifidirect-legacy-ap orchestration layer (src/lib.rs).

The library wraps the Windows WiFiDirect legacy access-point API: a
`WlanHostedNetworkHelper` owns a `WiFiDirectAdvertisementPublisher`, a
status-changed callback translates publisher status events into text
notifications sent over an mpsc channel, a spawned thread forwards these
notifications to a `UI` sink, and on the `Started` status a connection
listener is installed whose callbacks handle connection requests and
device resolution.

The embedding below models the WinRT enums by their integer codes, every
fallible WinRT call by an `Except Int` oracle value supplied as input, and
a `panic!` / `.expect` failure by an explicit `panicked` outcome.
-/

namespace WifiDirectLegacyAp

/-- Decidable equality for `Except`, needed to evaluate the embedded
functions on concrete oracle inputs. -/
instance {ε α : Type} [DecidableEq ε] [DecidableEq α] : DecidableEq (Except ε α)
  | .error e, .error f =>
    if h : e = f then .isTrue (h ▸ rfl)
    else .isFalse (fun hh => h (Except.error.inj hh))
  | .error _, .ok _ => .isFalse (fun hh => Except.noConfusion hh)
  | .ok _, .error _ => .isFalse (fun hh => Except.noConfusion hh)
  | .ok a, .ok b =>
    if h : a = b then .isTrue (h ▸ rfl)
    else .isFalse (fun hh => h (Except.ok.inj hh))

/-- Integer code of `WiFiDirectAdvertisementPublisherStatus::Created`. -/
def PublisherStatus.Created : Int := 0

/-- Integer code of `WiFiDirectAdvertisementPublisherStatus::Started`. -/
def PublisherStatus.Started : Int := 1

/-- Integer code of `WiFiDirectAdvertisementPublisherStatus::Stopped`. -/
def PublisherStatus.Stopped : Int := 2

/-- Integer code of `WiFiDirectAdvertisementPublisherStatus::Aborted`. -/
def PublisherStatus.Aborted : Int := 3

/-- Integer code of `WiFiDirectError::Success`. -/
def WiFiDirectError.Success : Int := 0

/-- Integer code of `WiFiDirectError::RadioNotAvailable`. -/
def WiFiDirectError.RadioNotAvailable : Int := 1

/-- Integer code of `WiFiDirectError::ResourceInUse`. -/
def WiFiDirectError.ResourceInUse : Int := 2

/-- Integer code of `AsyncStatus::Completed`. -/
def AsyncStatus.Completed : Int := 1

/-- Outcome of running one callback body: normal return, an error
propagated with the `?` operator, or an abnormal termination
(`panic!` / `.expect`). -/
inductive CallbackOutcome where
  | ok : CallbackOutcome
  | errReturn (code : Int) : CallbackOutcome
  | panicked (msg : String) : CallbackOutcome
  deriving DecidableEq, Repr

/-- Effects of one invocation of the publisher status-changed callback
(src/lib.rs lines 132-170): the messages sent on the channel `tx`, whether
`start_listener` installed the connection listener, and how the callback
body terminated. -/
structure RelayEffect where
  sent : List String
  installListener : Bool
  outcome : CallbackOutcome
  deriving DecidableEq, Repr

/-- Mapping of a `WiFiDirectError` code to its display text, as in the
`match` at src/lib.rs lines 153-163; an unrecognized code has no text
(the source panics there). -/
def abortReasonText (err : Int) : Option String :=
  if err = WiFiDirectError.RadioNotAvailable then some "Radio not available"
  else if err = WiFiDirectError.ResourceInUse then some "Resource in use"
  else if err = WiFiDirectError.Success then some "Success"
  else none

/-- The publisher status-changed callback body (src/lib.rs lines 132-170).
`ssid` is the SSID captured by the closure, `status` the delivered status
code, `errorCode` the result of `args.Error()` (read only in the Aborted
branch), and `startListenerResult` the outcome of the `start_listener`
call made in the Started branch (before the started message is sent). -/
def publisherStatusChangedCallback (ssid : String) (status : Int) (errorCode : Int)
    (startListenerResult : Except Int Unit) : RelayEffect :=
  if status = PublisherStatus.Created then
    ⟨["Hosted network created"], false, .ok⟩
  else if status = PublisherStatus.Stopped then
    ⟨["Hosted network stopped"], false, .ok⟩
  else if status = PublisherStatus.Started then
    match startListenerResult with
    | .error e => ⟨[], false, .errReturn e⟩
    | .ok _ => ⟨["Hosted network " ++ ssid ++ " has started"], true, .ok⟩
  else if status = PublisherStatus.Aborted then
    match abortReasonText errorCode with
    | some reason => ⟨["Hosted network aborted: " ++ reason], false, .ok⟩
    | none => ⟨[], false, .panicked "got bad WiFiDirectError"⟩
  else
    ⟨[], false, .panicked "Bad status received in callback."⟩

/-- Effects of one call to `WlanHostedNetworkHelper::stop`
(src/lib.rs lines 42-56): whether `publisher.Stop()` was issued and the
messages written directly to the `ui` sink. -/
structure StopEffect where
  stopIssued : Bool
  sink : List String
  deriving DecidableEq, Repr

/-- The body of `WlanHostedNetworkHelper::stop` (src/lib.rs lines 42-56).
`statusCall` is the result of `publisher.Status()` and `stopCall` the
result of `publisher.Stop()` (issued only when the status reads Started). -/
def stop (statusCall : Except Int Int) (stopCall : Except Int Unit) :
    StopEffect × Except Int Unit :=
  match statusCall with
  | .error e => (⟨false, []⟩, .error e)
  | .ok status =>
    if status = PublisherStatus.Started then
      match stopCall with
      | .error e => (⟨true, []⟩, .error e)
      | .ok _ => (⟨true, ["Hosted network stopped"]⟩, .ok ())
    else
      (⟨false, ["Stop called but WiFiDirectAdvertisementPublisher is not running"]⟩, .ok ())

/-- One OS-level call made by `start` (src/lib.rs lines 124-192), in
source order. -/
inductive SetupStep where
  | createPublisher
  | registerStatusHandler
  | getAdvertisement
  | setAutonomousGroupOwner
  | getLegacySettings
  | enableLegacySettings
  | setSsid
  | createCredential
  | setPassword
  | attachPassphrase
  | issueStart
  deriving DecidableEq, Repr

/-- Outcome of `start`: success, an error returned with `?`, or the
`.expect` panic on a failed `Advertisement()` call. -/
inductive SetupOutcome where
  | ok : SetupOutcome
  | errReturn (code : Int) : SetupOutcome
  | panicked (msg : String) : SetupOutcome
  deriving DecidableEq, Repr

/-- Results of the eleven fallible WinRT calls made by `start`, in source
order (src/lib.rs lines 124-192). -/
structure WinRTCalls where
  newPublisher : Except Int Unit
  statusChanged : Except Int Unit
  advertisement : Except Int Unit
  setIsAutonomousGroupOwnerEnabled : Except Int Unit
  legacySettings : Except Int Unit
  setIsEnabled : Except Int Unit
  setSsid : Except Int Unit
  newPasswordCredential : Except Int Unit
  setPassword : Except Int Unit
  setPassphrase : Except Int Unit
  startPublisher : Except Int Unit
  deriving DecidableEq, Repr

/-- The `start` function (src/lib.rs lines 124-192), as the sequence of
setup steps it attempts (in order) and its outcome. Every call is chained
with `?` except `publisher.Advertisement()`, whose failure hits an
`.expect` (line 176) and panics. -/
def start (c : WinRTCalls) : List SetupStep × SetupOutcome :=
  match c.newPublisher with
  | .error e => ([.createPublisher], .errReturn e)
  | .ok _ =>
  match c.statusChanged with
  | .error e => ([.createPublisher, .registerStatusHandler], .errReturn e)
  | .ok _ =>
  match c.advertisement with
  | .error _ =>
    ([.createPublisher, .registerStatusHandler, .getAdvertisement],
     .panicked "Error getting advertisement")
  | .ok _ =>
  match c.setIsAutonomousGroupOwnerEnabled with
  | .error e =>
    ([.createPublisher, .registerStatusHandler, .getAdvertisement,
      .setAutonomousGroupOwner], .errReturn e)
  | .ok _ =>
  match c.legacySettings with
  | .error e =>
    ([.createPublisher, .registerStatusHandler, .getAdvertisement,
      .setAutonomousGroupOwner, .getLegacySettings], .errReturn e)
  | .ok _ =>
  match c.setIsEnabled with
  | .error e =>
    ([.createPublisher, .registerStatusHandler, .getAdvertisement,
      .setAutonomousGroupOwner, .getLegacySettings, .enableLegacySettings], .errReturn e)
  | .ok _ =>
  match c.setSsid with
  | .error e =>
    ([.createPublisher, .registerStatusHandler, .getAdvertisement,
      .setAutonomousGroupOwner, .getLegacySettings, .enableLegacySettings,
      .setSsid], .errReturn e)
  | .ok _ =>
  match c.newPasswordCredential with
  | .error e =>
    ([.createPublisher, .registerStatusHandler, .getAdvertisement,
      .setAutonomousGroupOwner, .getLegacySettings, .enableLegacySettings,
      .setSsid, .createCredential], .errReturn e)
  | .ok _ =>
  match c.setPassword with
  | .error e =>
    ([.createPublisher, .registerStatusHandler, .getAdvertisement,
      .setAutonomousGroupOwner, .getLegacySettings, .enableLegacySettings,
      .setSsid, .createCredential, .setPassword], .errReturn e)
  | .ok _ =>
  match c.setPassphrase with
  | .error e =>
    ([.createPublisher, .registerStatusHandler, .getAdvertisement,
      .setAutonomousGroupOwner, .getLegacySettings, .enableLegacySettings,
      .setSsid, .createCredential, .setPassword, .attachPassphrase], .errReturn e)
  | .ok _ =>
  match c.startPublisher with
  | .error e =>
    ([.createPublisher, .registerStatusHandler, .getAdvertisement,
      .setAutonomousGroupOwner, .getLegacySettings, .enableLegacySettings,
      .setSsid, .createCredential, .setPassword, .attachPassphrase,
      .issueStart], .errReturn e)
  | .ok _ =>
    ([.createPublisher, .registerStatusHandler, .getAdvertisement,
      .setAutonomousGroupOwner, .getLegacySettings, .enableLegacySettings,
      .setSsid, .createCredential, .setPassword, .attachPassphrase,
      .issueStart], .ok)

/-- All eleven WinRT calls of `start` succeed. -/
def allCallsOk (c : WinRTCalls) : Prop :=
  c.newPublisher = .ok () ∧ c.statusChanged = .ok () ∧ c.advertisement = .ok () ∧
  c.setIsAutonomousGroupOwnerEnabled = .ok () ∧ c.legacySettings = .ok () ∧
  c.setIsEnabled = .ok () ∧ c.setSsid = .ok () ∧ c.newPasswordCredential = .ok () ∧
  c.setPassword = .ok () ∧ c.setPassphrase = .ok () ∧ c.startPublisher = .ok ()

instance (c : WinRTCalls) : Decidable (allCallsOk c) := by
  unfold allCallsOk; infer_instance

/-- An endpoint pair as returned by `GetConnectionEndpointPairs`. The
source reads it only through `RemoteHostName()` (src/lib.rs line 83), a
fallible WinRT call chained with `?`, so the field carries that call's
result (the host name it yields, or the propagated error code). -/
structure EndpointPair where
  remoteHostName : Except Int String
  deriving DecidableEq, Repr

/-- A resolved `WiFiDirectDevice`, carrying its connection endpoint pairs. -/
structure ResolvedDevice where
  endpointPairs : List EndpointPair
  deriving DecidableEq, Repr

/-- The HRESULT `E_BOUNDS` returned by `IVectorView::GetAt` on an
out-of-range index. -/
def eBounds : Int := 2147483659

/-- The semantics of `IVectorView::GetAt` (src/lib.rs line 82): the
element at the index, or an `E_BOUNDS` error propagated by `?`. -/
def vectorViewGetAt (l : List EndpointPair) (i : Nat) : Except Int EndpointPair :=
  if h : i < l.length then .ok (l.get ⟨i, h⟩) else .error eBounds

/-- The `AsyncOperationCompletedHandler` body for device resolution
(src/lib.rs lines 75-116): given the async status and the result of
`GetResults()`, it returns whether the per-device connection-status-changed
handler got registered, and the callback result. On `Completed` it calls
`GetConnectionEndpointPairs()?.GetAt(0)?` unconditionally, then
`RemoteHostName()?` on the retrieved pair (src/lib.rs line 83, the
`DisplayName()` result on line 84 is discarded without `?`), and only then
registers the connection-status-changed handler; on any other status it
does nothing. -/
def asyncOperationCompletedCallback (status : Int)
    (getResults : Except Int ResolvedDevice) : Bool × Except Int Unit :=
  if status = AsyncStatus.Completed then
    match getResults with
    | .error e => (false, .error e)
    | .ok dev =>
      match vectorViewGetAt dev.endpointPairs 0 with
      | .error e => (false, .error e)
      | .ok pair =>
        match pair.remoteHostName with
        | .error e => (false, .error e)
        | .ok _hostName => (true, .ok ())
  else
    (false, .ok ())

/-- The notification-forwarding thread spawned by
`WlanHostedNetworkHelper::new` (src/lib.rs lines 27-36), run on a channel
that delivers `delivered` and is then closed with receive error text
`closeErr`: each received message is forwarded verbatim to the `ui` sink;
the failing receive after close makes the thread emit one final exiting
message and break out of the loop. -/
def forwardingThread (delivered : List String) (closeErr : String) : List String :=
  match delivered with
  | [] => ["WiFiDirect thread exiting: " ++ closeErr]
  | msg :: rest => msg :: forwardingThread rest closeErr

/-- An OS-delivered event of one session: a publisher status change
(with the error code read in the Aborted branch), or a connection request
hitting the connection listener. -/
inductive OsEvent where
  | statusChanged (status : Int) (errorCode : Int)
  | connectionRequested
  deriving DecidableEq, Repr

/-- Serialized handling of one OS event. A status change runs the
status-changed callback (listener setup succeeding); a connection request
produces the "Connection requested..." message of src/lib.rs line 65, but
only when the connection listener has been installed (before that the
handler of src/lib.rs lines 61-119 is not registered, so nothing runs).
Returns the new listener-installed flag and the messages sent. -/
def sessionStep (ssid : String) (installed : Bool) : OsEvent → Bool × List String
  | .statusChanged s e =>
    let r := publisherStatusChangedCallback ssid s e (.ok ())
    (installed || r.installListener, r.sent)
  | .connectionRequested =>
    (installed, if installed then ["Connection requested..."] else [])

/-- The message trace of a session handling a list of OS events in order,
starting from listener-installed flag `installed`. -/
def sessionTrace (ssid : String) (installed : Bool) : List OsEvent → List String
  | [] => []
  | ev :: rest =>
    let p := sessionStep ssid installed ev
    p.2 ++ sessionTrace ssid p.1 rest

/-- The status code of the first status-changed event in an event list. -/
def firstStatus : List OsEvent → Option Int
  | [] => none
  | .statusChanged s _ :: _ => some s
  | .connectionRequested :: rest => firstStatus rest

/-- C1 counterexample: with the publisher status reading Started and the
stop command succeeding, `stop` itself writes "Hosted network stopped"
directly to the sink (src/lib.rs line 50), so together with the message
the Relay sends on the later Stopped status, two "Hosted network stopped"
notifications reach the sink, not one. -/
theorem C1_counterexample :
    (stop (.ok PublisherStatus.Started) (.ok ())).1.sink = ["Hosted network stopped"] ∧
    ((stop (.ok PublisherStatus.Started) (.ok ())).1.sink ++
        (publisherStatusChangedCallback "TestNet" PublisherStatus.Stopped 0 (.ok ())).sent).count
      "Hosted network stopped" = 2 := by
  decide

/-- C1 (amended): when the publisher status reads Started and the stop
command succeeds, `stop` issues the stop command, itself emits exactly one
"Hosted network stopped" directly via the sink, emits no
"stop called but not running" message, and returns success; the Relay
emits a second "Hosted network stopped" on the eventual Stopped status. -/
theorem C1_stop_when_started (statusCall : Except Int Int) (stopCall : Except Int Unit)
    (ssid : String) (e : Int)
    (hs : statusCall = .ok PublisherStatus.Started) (hc : stopCall = .ok ()) :
    stop statusCall stopCall = (⟨true, ["Hosted network stopped"]⟩, .ok ()) ∧
    (publisherStatusChangedCallback ssid PublisherStatus.Stopped e (.ok ())).sent
      = ["Hosted network stopped"] := by
  subst hs; subst hc
  exact ⟨rfl, rfl⟩

/-- C1 witness: the amended statement evaluated at concrete inputs. -/
theorem C1_stop_when_started_witness :
    stop (.ok PublisherStatus.Started) (.ok ())
      = (⟨true, ["Hosted network stopped"]⟩, .ok ()) :=
  (C1_stop_when_started (.ok PublisherStatus.Started) (.ok ()) "TestNet" 0 rfl rfl).1

/-- C2: when the publisher status reads anything other than Started,
`stop` issues no stop command, writes exactly one
"Stop called but WiFiDirectAdvertisementPublisher is not running"
message to the sink (and no "stopped" message), and returns success. -/
theorem C2_stop_when_not_started (statusCall : Except Int Int) (stopCall : Except Int Unit)
    (status : Int) (hs : statusCall = .ok status)
    (hne : status ≠ PublisherStatus.Started) :
    stop statusCall stopCall
      = (⟨false, ["Stop called but WiFiDirectAdvertisementPublisher is not running"]⟩,
         .ok ()) := by
  subst hs
  simp [stop, hne]

/-- C2 witness: `stop` with status Stopped evaluated concretely. -/
theorem C2_stop_when_not_started_witness :
    stop (.ok PublisherStatus.Stopped) (.ok ())
      = (⟨false, ["Stop called but WiFiDirectAdvertisementPublisher is not running"]⟩,
         .ok ()) :=
  C2_stop_when_not_started (.ok PublisherStatus.Stopped) (.ok ())
    PublisherStatus.Stopped rfl (by decide)

/-- C3: the Relay maps the Created status to exactly
"Hosted network created", the Stopped status to exactly
"Hosted network stopped", and the Started status (with the listener setup
succeeding) to exactly "Hosted network {ssid} has started" with the
session SSID interpolated. -/
theorem C3_relay_status_texts (ssid : String) (errorCode : Int) :
    (publisherStatusChangedCallback ssid PublisherStatus.Created errorCode (.ok ())).sent
      = ["Hosted network created"] ∧
    (publisherStatusChangedCallback ssid PublisherStatus.Stopped errorCode (.ok ())).sent
      = ["Hosted network stopped"] ∧
    (publisherStatusChangedCallback ssid PublisherStatus.Started errorCode (.ok ())).sent
      = ["Hosted network " ++ ssid ++ " has started"] :=
  ⟨rfl, rfl, rfl⟩

/-- C10: the forwarding thread run on a channel that delivers `delivered`
and then closes forwards every message verbatim and in order, then emits
exactly one final "WiFiDirect thread exiting: {error}" message, and
terminates; receiving the close error is its only exit path. -/
theorem C10_forwarding_thread (delivered : List String) (closeErr : String) :
    forwardingThread delivered closeErr
      = delivered ++ ["WiFiDirect thread exiting: " ++ closeErr] := by
  induction delivered with
  | nil => rfl
  | cons msg rest ih => simp [forwardingThread, ih]

/-- C4 counterexample: there is no fourth abort reason that maps to text.
The concrete error code 3 (distinct from RadioNotAvailable, ResourceInUse
and Success) has no mapped text, and on an Aborted status with it the
callback emits nothing and panics instead. -/
theorem C4_counterexample :
    abortReasonText 3 = none ∧
    publisherStatusChangedCallback "TestNet" PublisherStatus.Aborted 3 (.ok ())
      = ⟨[], false, .panicked "got bad WiFiDirectError"⟩ := by
  decide

/-- C4 (amended): exactly three abort reasons map to text —
RadioNotAvailable to "Radio not available", ResourceInUse to
"Resource in use", Success to "Success" — and on an Aborted status the
notification "Hosted network aborted: {reason}" is emitted exactly for
these mapped cases, with the mapped text interpolated. -/
theorem C4_abort_reason_mapping (ssid : String) (e : Int) :
    abortReasonText WiFiDirectError.RadioNotAvailable = some "Radio not available" ∧
    abortReasonText WiFiDirectError.ResourceInUse = some "Resource in use" ∧
    abortReasonText WiFiDirectError.Success = some "Success" ∧
    ((abortReasonText e).isSome ↔
      (e = WiFiDirectError.Success ∨ e = WiFiDirectError.RadioNotAvailable ∨
        e = WiFiDirectError.ResourceInUse)) ∧
    (∀ t, abortReasonText e = some t →
      (publisherStatusChangedCallback ssid PublisherStatus.Aborted e (.ok ())).sent
        = ["Hosted network aborted: " ++ t]) ∧
    (abortReasonText e = none →
      (publisherStatusChangedCallback ssid PublisherStatus.Aborted e (.ok ())).sent
        = []) := by
  refine ⟨rfl, rfl, rfl, ?_, ?_, ?_⟩
  · unfold abortReasonText WiFiDirectError.Success WiFiDirectError.RadioNotAvailable
      WiFiDirectError.ResourceInUse
    split
    · simp only [Option.isSome_some, true_iff]; tauto
    · split
      · simp only [Option.isSome_some, true_iff]; tauto
      · split
        · simp only [Option.isSome_some, true_iff]; tauto
        · simp only [Option.isSome_none, false_iff]; tauto
  · intro t ht
    simp [publisherStatusChangedCallback, PublisherStatus.Aborted, PublisherStatus.Created,
      PublisherStatus.Stopped, PublisherStatus.Started, ht]
  · intro ht
    simp [publisherStatusChangedCallback, PublisherStatus.Aborted, PublisherStatus.Created,
      PublisherStatus.Stopped, PublisherStatus.Started, ht]

/-- C4 witness: the amended statement evaluated at the concrete error code
RadioNotAvailable. -/
theorem C4_abort_reason_mapping_witness :
    (publisherStatusChangedCallback "TestNet" PublisherStatus.Aborted
        WiFiDirectError.RadioNotAvailable (.ok ())).sent
      = ["Hosted network aborted: Radio not available"] :=
  (C4_abort_reason_mapping "TestNet" WiFiDirectError.RadioNotAvailable).2.2.2.2.1
    "Radio not available" rfl

/-- C5: a status code outside Created, Started, Stopped and Aborted makes
the status-changed callback panic with "Bad status received in callback."
and emit nothing; an Aborted status with an error code outside Success,
RadioNotAvailable and ResourceInUse makes it panic with
"got bad WiFiDirectError" and emit nothing; and whenever only recognized
values arrive, the callback never panics. -/
theorem C5_defensive_panics (ssid : String) (status errorCode : Int)
    (lr : Except Int Unit) :
    (status ≠ PublisherStatus.Created → status ≠ PublisherStatus.Started →
      status ≠ PublisherStatus.Stopped → status ≠ PublisherStatus.Aborted →
      publisherStatusChangedCallback ssid status errorCode lr
        = ⟨[], false, .panicked "Bad status received in callback."⟩) ∧
    (status = PublisherStatus.Aborted → errorCode ≠ WiFiDirectError.Success →
      errorCode ≠ WiFiDirectError.RadioNotAvailable →
      errorCode ≠ WiFiDirectError.ResourceInUse →
      publisherStatusChangedCallback ssid status errorCode lr
        = ⟨[], false, .panicked "got bad WiFiDirectError"⟩) ∧
    ((status = PublisherStatus.Created ∨ status = PublisherStatus.Started ∨
        status = PublisherStatus.Stopped ∨
        (status = PublisherStatus.Aborted ∧
          (errorCode = WiFiDirectError.Success ∨
            errorCode = WiFiDirectError.RadioNotAvailable ∨
            errorCode = WiFiDirectError.ResourceInUse))) →
      ∀ m, (publisherStatusChangedCallback ssid status errorCode lr).outcome
        ≠ .panicked m) := by
  refine ⟨?_, ?_, ?_⟩
  · intro h0 h1 h2 h3
    simp [publisherStatusChangedCallback, h0, h1, h2, h3]
  · intro h3 e0 e1 e2
    subst h3
    simp [publisherStatusChangedCallback, PublisherStatus.Aborted, PublisherStatus.Created,
      PublisherStatus.Stopped, PublisherStatus.Started, abortReasonText, e0, e1, e2]
  · rintro (h | h | h | ⟨h, he⟩) m <;> subst h
    · simp [publisherStatusChangedCallback, PublisherStatus.Created]
    · simp only [publisherStatusChangedCallback, PublisherStatus.Started,
        PublisherStatus.Created, PublisherStatus.Stopped]
      norm_num
      cases lr <;> simp
    · simp [publisherStatusChangedCallback, PublisherStatus.Stopped, PublisherStatus.Created]
    · rcases he with he | he | he <;> subst he <;>
        simp [publisherStatusChangedCallback, PublisherStatus.Aborted, PublisherStatus.Created,
          PublisherStatus.Stopped, PublisherStatus.Started, abortReasonText,
          WiFiDirectError.Success, WiFiDirectError.RadioNotAvailable,
          WiFiDirectError.ResourceInUse]

/-- C5 witness: the defensive branches evaluated at the concrete
unrecognized status 7 and at an Aborted event with unrecognized error 9,
and the no-panic conclusion at the recognized Created status. -/
theorem C5_defensive_panics_witness :
    publisherStatusChangedCallback "TestNet" 7 0 (.ok ())
      = ⟨[], false, .panicked "Bad status received in callback."⟩ ∧
    publisherStatusChangedCallback "TestNet" PublisherStatus.Aborted 9 (.ok ())
      = ⟨[], false, .panicked "got bad WiFiDirectError"⟩ ∧
    (publisherStatusChangedCallback "TestNet" PublisherStatus.Created 0 (.ok ())).outcome
      ≠ .panicked "Bad status received in callback." :=
  ⟨(C5_defensive_panics "TestNet" 7 0 (.ok ())).1
      (by decide) (by decide) (by decide) (by decide),
   (C5_defensive_panics "TestNet" PublisherStatus.Aborted 9 (.ok ())).2.1
      rfl (by decide) (by decide) (by decide),
   (C5_defensive_panics "TestNet" PublisherStatus.Created 0 (.ok ())).2.2
      (Or.inl rfl) "Bad status received in callback."⟩

/-- The oracle on which every WinRT call of `start` succeeds. -/
def callsAllOk : WinRTCalls :=
  ⟨.ok (), .ok (), .ok (), .ok (), .ok (), .ok (), .ok (), .ok (), .ok (), .ok (), .ok ()⟩

/-- The oracle on which `publisher.Advertisement()` fails with code 5 and
every other WinRT call succeeds. -/
def callsAdvertisementFails : WinRTCalls :=
  ⟨.ok (), .ok (), .error 5, .ok (), .ok (), .ok (), .ok (), .ok (), .ok (), .ok (), .ok ()⟩

/-- C6: when every call succeeds, `start` performs exactly the source
sequence — create publisher, register status handler, get the
advertisement, enable autonomous group owner, get legacy settings, enable
them, set the SSID, create the credential, set the password on it, attach
it as passphrase — and issues the start command last; in particular the
steps named by the spec occur in the spec order (as a subsequence of the
full trace) with the start command last. -/
theorem C6_setup_order (c : WinRTCalls) (h : allCallsOk c) :
    start c = ([.createPublisher, .registerStatusHandler, .getAdvertisement,
      .setAutonomousGroupOwner, .getLegacySettings, .enableLegacySettings,
      .setSsid, .createCredential, .setPassword, .attachPassphrase,
      .issueStart], .ok) ∧
    List.Sublist [.createPublisher, .registerStatusHandler, .setAutonomousGroupOwner,
      .enableLegacySettings, .setSsid, .createCredential, .setPassword,
      .attachPassphrase, .issueStart] (start c).1 ∧
    (start c).1.getLast? = some .issueStart := by
  obtain ⟨h1, h2, h3, h4, h5, h6, h7, h8, h9, h10, h11⟩ := h
  have hs : start c = ([.createPublisher, .registerStatusHandler, .getAdvertisement,
      .setAutonomousGroupOwner, .getLegacySettings, .enableLegacySettings,
      .setSsid, .createCredential, .setPassword, .attachPassphrase,
      .issueStart], .ok) := by
    unfold start
    rw [h1, h2, h3, h4, h5, h6, h7, h8, h9, h10, h11]
  rw [hs]
  refine ⟨rfl, ?_, rfl⟩
  decide

/-- C6 witness: the all-success oracle satisfies the hypothesis and the
trace ends with the start command. -/
theorem C6_setup_order_witness :
    allCallsOk callsAllOk ∧ (start callsAllOk).1.getLast? = some .issueStart := by
  have h : allCallsOk callsAllOk :=
    ⟨rfl, rfl, rfl, rfl, rfl, rfl, rfl, rfl, rfl, rfl, rfl⟩
  exact ⟨h, (C6_setup_order callsAllOk h).2.2⟩

/-- C7 counterexample: a failure of the `publisher.Advertisement()` call
(error code 5, all other calls succeeding) does not propagate as an error
return: the `.expect` at src/lib.rs line 176 terminates `start` — and
hence `new` — abnormally. -/
theorem C7_counterexample :
    (start callsAdvertisementFails).2 = .panicked "Error getting advertisement" := by
  decide

/-- C7 (amended): provided the `Advertisement()` call succeeds, `start`
returns success exactly when every call succeeds, never terminates
abnormally, and any failing setup call makes it abort and return its
error code to the caller of `new`; the one exception is the
`Advertisement()` call itself, whose failure panics via `.expect`. -/
theorem C7_setup_error_propagation (c : WinRTCalls)
    (hadv : c.advertisement = .ok ()) :
    ((start c).2 = .ok ↔ allCallsOk c) ∧
    (∀ m, (start c).2 ≠ .panicked m) ∧
    (¬ allCallsOk c → ∃ e, (start c).2 = .errReturn e) := by
  obtain ⟨f1, f2, f3, f4, f5, f6, f7, f8, f9, f10, f11⟩ := c
  simp only at hadv
  subst hadv
  cases f1 <;> cases f2 <;> cases f4 <;> cases f5 <;> cases f6 <;> cases f7 <;>
    cases f8 <;> cases f9 <;> cases f10 <;> cases f11 <;>
    simp [start, allCallsOk]

/-- C7 witness: the amended statement at a concrete oracle where the
password-setting call fails with code 7. -/
theorem C7_setup_error_propagation_witness :
    (start ⟨.ok (), .ok (), .ok (), .ok (), .ok (), .ok (), .ok (), .ok (),
        .error 7, .ok (), .ok ()⟩).2
      = .errReturn 7 ∧
    ∀ m, (start ⟨.ok (), .ok (), .ok (), .ok (), .ok (), .ok (), .ok (), .ok (),
        .error 7, .ok (), .ok ()⟩).2 ≠ .panicked m := by
  have h := C7_setup_error_propagation
    ⟨.ok (), .ok (), .ok (), .ok (), .ok (), .ok (), .ok (), .ok (),
      .error 7, .ok (), .ok ()⟩ rfl
  exact ⟨by decide, h.2.1⟩

/-- The started notification of a session differs from the
connection-request notification, whatever the SSID (their lengths differ). -/
theorem startedMsg_ne_connectionRequested (ssid : String) :
    "Hosted network " ++ ssid ++ " has started" ≠ "Connection requested..." := by
  intro h
  have hl := congrArg String.length h
  rw [String.length_append, String.length_append] at hl
  have h1 : "Hosted network ".length = 15 := rfl
  have h2 : " has started".length = 12 := rfl
  have h3 : "Connection requested...".length = 23 := rfl
  rw [h1, h2, h3] at hl
  omega

/-- If the first status event of the event list is Created, the first
message of the session trace is "Hosted network created" (connection
requests arriving earlier produce nothing because no listener is
installed yet). -/
theorem sessionTrace_head_created (ssid : String) (events : List OsEvent)
    (h : firstStatus events = some PublisherStatus.Created) :
    (sessionTrace ssid false events).head? = some "Hosted network created" := by
  induction events with
  | nil => simp [firstStatus] at h
  | cons ev rest ih =>
    cases ev with
    | connectionRequested =>
      simp only [firstStatus] at h
      simpa [sessionTrace, sessionStep] using ih h
    | statusChanged s e =>
      simp only [firstStatus, Option.some.injEq] at h
      subst h
      simp [sessionTrace, sessionStep, publisherStatusChangedCallback,
        PublisherStatus.Created]

/-- In a session trace starting with no listener installed, every
"Connection requested..." message is preceded by the started notification:
the listener only gets installed by the Started branch, which emits the
started message in the same handling step. -/
theorem connectionRequested_after_started (ssid : String) (events : List OsEvent) :
    ∀ pre post, sessionTrace ssid false events
        = pre ++ "Connection requested..." :: post →
      ("Hosted network " ++ ssid ++ " has started") ∈ pre := by
  induction events with
  | nil =>
    intro pre post h
    simp only [sessionTrace] at h
    cases pre <;> simp at h
  | cons ev rest ih =>
    intro pre post h
    cases ev with
    | connectionRequested =>
      simp only [sessionTrace, sessionStep, Bool.false_eq_true, if_false,
        List.nil_append] at h
      exact ih pre post h
    | statusChanged s e =>
      simp only [sessionTrace, sessionStep] at h
      by_cases h0 : s = PublisherStatus.Created
      · subst h0
        simp only [publisherStatusChangedCallback, PublisherStatus.Created, if_pos rfl,
          List.singleton_append, Bool.or_false] at h
        cases pre with
        | nil => simp at h
        | cons a pre2 =>
          rw [List.cons_append] at h
          obtain ⟨ha, htail⟩ := List.cons.injEq .. ▸ h
          exact List.mem_cons_of_mem _ (ih pre2 post htail)
      · by_cases h2 : s = PublisherStatus.Stopped
        · subst h2
          simp only [publisherStatusChangedCallback, PublisherStatus.Created,
            PublisherStatus.Stopped, if_pos rfl] at h
          norm_num at h
          cases pre with
          | nil => simp at h
          | cons a pre2 =>
            rw [List.cons_append] at h
            obtain ⟨ha, htail⟩ := List.cons.injEq .. ▸ h
            exact List.mem_cons_of_mem _ (ih pre2 post htail)
        · by_cases h1 : s = PublisherStatus.Started
          · subst h1
            simp only [publisherStatusChangedCallback, PublisherStatus.Created,
              PublisherStatus.Started, PublisherStatus.Stopped] at h
            norm_num at h
            cases pre with
            | nil =>
              rw [List.nil_append] at h
              have := (List.cons.injEq .. ▸ h).1
              exact absurd this (startedMsg_ne_connectionRequested ssid)
            | cons a pre2 =>
              rw [List.cons_append] at h
              have ha := (List.cons.injEq .. ▸ h).1
              rw [← ha]
              exact List.mem_cons_self _ _
          · by_cases h3 : s = PublisherStatus.Aborted
            · subst h3
              simp only [publisherStatusChangedCallback, PublisherStatus.Created,
                PublisherStatus.Started, PublisherStatus.Stopped,
                PublisherStatus.Aborted] at h
              norm_num at h
              cases habort : abortReasonText e with
              | none =>
                rw [habort] at h
                simp only [List.nil_append] at h
                exact ih pre post h
              | some reason =>
                rw [habort] at h
                simp only [List.singleton_append] at h
                have hreason : reason = "Radio not available" ∨
                    reason = "Resource in use" ∨ reason = "Success" := by
                  unfold abortReasonText at habort
                  split at habort
                  · exact Or.inl (Option.some.inj habort).symm
                  · split at habort
                    · exact Or.inr (Or.inl (Option.some.inj habort).symm)
                    · split at habort
                      · exact Or.inr (Or.inr (Option.some.inj habort).symm)
                      · exact absurd habort (by simp)
                cases pre with
                | nil =>
                  have := (List.cons.injEq .. ▸ h).1
                  rcases hreason with hr | hr | hr <;> subst hr <;> simp at this
                | cons a pre2 =>
                  rw [List.cons_append] at h
                  obtain ⟨ha, htail⟩ := List.cons.injEq .. ▸ h
                  exact List.mem_cons_of_mem _ (ih pre2 post htail)
            · simp only [publisherStatusChangedCallback, h0, h1, h2, h3, if_false,
                List.nil_append, Bool.or_false] at h
              exact ih pre post h

/-- C8: for a session handling its OS events in order, (i) if the first
status event is Created then the first notification of the trace is
"Hosted network created"; (ii) the Started branch of the status-changed
callback is the one that installs the Connection Listener; and (iii) the
started notification naming the exact SSID precedes every
"Connection requested..." notification in the trace. -/
theorem C8_notification_order (ssid : String) (events : List OsEvent) (e : Int) :
    (firstStatus events = some PublisherStatus.Created →
      (sessionTrace ssid false events).head? = some "Hosted network created") ∧
    (publisherStatusChangedCallback ssid PublisherStatus.Started e (.ok ())).installListener
      = true ∧
    (∀ pre post, sessionTrace ssid false events
        = pre ++ "Connection requested..." :: post →
      ("Hosted network " ++ ssid ++ " has started") ∈ pre) :=
  ⟨fun h => sessionTrace_head_created ssid events h, rfl,
   connectionRequested_after_started ssid events⟩

/-- C8 witness: a concrete event sequence — Created, then Started, then a
connection request — whose trace puts "created" first and the started
message before the connection-request message. -/
theorem C8_notification_order_witness :
    (sessionTrace "TestNet" false
        [.statusChanged PublisherStatus.Created 0,
         .statusChanged PublisherStatus.Started 0, .connectionRequested]).head?
      = some "Hosted network created" ∧
    ("Hosted network " ++ "TestNet" ++ " has started")
      ∈ ["Hosted network created", "Hosted network TestNet has started"] := by
  have h := C8_notification_order "TestNet"
    [.statusChanged PublisherStatus.Created 0,
     .statusChanged PublisherStatus.Started 0, .connectionRequested] 0
  refine ⟨h.1 (by decide), ?_⟩
  exact h.2.2 ["Hosted network created", "Hosted network TestNet has started"] []
    (by decide)

/-- C9 counterexample: a one-entry endpoint-pair collection whose pair's
`RemoteHostName()` call fails with code 7. The index-0 access succeeds,
yet the callback propagates the error from src/lib.rs line 83 and the
per-device handler is never registered — so a nonempty collection does
not suffice for registration, and the index access is not the only
failure point after it. -/
theorem C9_counterexample :
    asyncOperationCompletedCallback AsyncStatus.Completed
        (.ok ⟨[⟨.error 7⟩]⟩) = (false, .error 7) ∧
    vectorViewGetAt [(⟨.error 7⟩ : EndpointPair)] 0 = .ok ⟨.error 7⟩ := by
  decide

/-- C9 (amended): on a device-resolution completion reporting success
(status Completed, `GetResults` succeeding), the handler accesses index 0
of the endpoint-pair collection unconditionally: with at least one entry
the index access succeeds; if the subsequent `RemoteHostName()` call on
the retrieved pair also succeeds, the per-device connection-status-changed
handler is registered, while a `RemoteHostName()` failure propagates as
the callback's error with nothing registered; with an empty collection
the index access fails with `E_BOUNDS`, which is the sole failure of that
branch, and nothing is registered. -/
theorem C9_endpoint_pair_index (dev : ResolvedDevice) :
    (∀ pair host, vectorViewGetAt dev.endpointPairs 0 = .ok pair →
      pair.remoteHostName = .ok host →
      asyncOperationCompletedCallback AsyncStatus.Completed (.ok dev)
        = (true, .ok ())) ∧
    (∀ pair e, vectorViewGetAt dev.endpointPairs 0 = .ok pair →
      pair.remoteHostName = .error e →
      asyncOperationCompletedCallback AsyncStatus.Completed (.ok dev)
        = (false, .error e)) ∧
    (dev.endpointPairs ≠ [] →
      ∃ pair, vectorViewGetAt dev.endpointPairs 0 = .ok pair) ∧
    (dev.endpointPairs = [] →
      asyncOperationCompletedCallback AsyncStatus.Completed (.ok dev)
        = (false, .error eBounds)) := by
  refine ⟨?_, ?_, ?_, ?_⟩
  · intro pair host h1 h2
    simp [asyncOperationCompletedCallback, h1, h2]
  · intro pair e h1 h2
    simp [asyncOperationCompletedCallback, h1, h2]
  · intro h
    have hlen : 0 < dev.endpointPairs.length := List.length_pos.mpr h
    exact ⟨dev.endpointPairs.get ⟨0, hlen⟩, by simp [vectorViewGetAt, hlen]⟩
  · intro h
    simp [asyncOperationCompletedCallback, vectorViewGetAt, h]

/-- C9 witness: the handler evaluated on a one-entry collection whose
host-name call succeeds, and on an empty collection. -/
theorem C9_endpoint_pair_index_witness :
    asyncOperationCompletedCallback AsyncStatus.Completed
        (.ok ⟨[⟨.ok "192.168.137.2"⟩]⟩) = (true, .ok ()) ∧
    asyncOperationCompletedCallback AsyncStatus.Completed
        (.ok ⟨[]⟩) = (false, .error eBounds) :=
  ⟨(C9_endpoint_pair_index ⟨[⟨.ok "192.168.137.2"⟩]⟩).1 ⟨.ok "192.168.137.2"⟩
      "192.168.137.2" (by decide) rfl,
   (C9_endpoint_pair_index ⟨[]⟩).2.2.2 rfl⟩

end WifiDirectLegacyAp
